import Mathlib

/-!
Shallow embedding of `src/lib/libssl/tls13_legacy.c`, the blocking-I/O
compatibility adapter for the TLS 1.3 record engine.

Modelling conventions:
* Machine integers are `Int`/`Nat`; `size_t` arithmetic carries an explicit
  `% 2^64`, and the `size_t`-to-`int` conversion on return is made explicit.
* All external collaborators (the record layer, the handshake driver, the
  error stack) are modelled as oracle parameters or explicit state fields:
  each call into the record layer consumes one outcome from an oracle list.
* The per-connection mutable state (`rwstate`, `wnum`, the close-notify
  flags, the error stack, the BIO retry flags) is an explicit record that
  every operation threads through.
* Each entry point additionally reports which external calls it performed
  (a trace), so that claims about "the record layer is not invoked" or
  "the alert is sent at most once" are directly statable.
-/

namespace TLS13Legacy

/-- Modelled from the spec: the outcome sentinels of the record-layer
interface (declared in `tls13_internal.h`, which is not part of the given
fragment). The spec fixes the vocabulary; the encoding keeps `SUCCESS` at
zero and all sentinels negative, as the comparisons `ret > 0`, `ret <= 0`
and `ret < 0` in `tls13_legacy.c` require. -/
def TLS13_IO_SUCCESS : Int := 0

/-- Modelled from the spec: end-of-file outcome sentinel. -/
def TLS13_IO_EOF : Int := -1

/-- Modelled from the spec: failure outcome sentinel. -/
def TLS13_IO_FAILURE : Int := -2

/-- Modelled from the spec: fatal-alert outcome sentinel. -/
def TLS13_IO_ALERT : Int := -3

/-- Modelled from the spec: retry-when-readable outcome sentinel. -/
def TLS13_IO_WANT_POLLIN : Int := -4

/-- Modelled from the spec: retry-when-writable outcome sentinel. -/
def TLS13_IO_WANT_POLLOUT : Int := -5

/-- Modelled from the spec: internal-only immediate-retry sentinel, which
must never escape to a caller. -/
def TLS13_IO_WANT_RETRY : Int := -6

/-- The platform's INT_MAX (32-bit int, as assumed by `<limits.h>`). -/
def INT_MAX : Int := 2 ^ 31 - 1

/-- Modelled from the spec: the record type tag for application data
(`SSL3_RT_APPLICATION_DATA`); only its identity matters. -/
def SSL3_RT_APPLICATION_DATA : Int := 23

/-- Modelled from the spec: shutdown bitmask flag for the sent direction. -/
def SSL_SENT_SHUTDOWN : Nat := 1

/-- Modelled from the spec: shutdown bitmask flag for the received
direction. -/
def SSL_RECEIVED_SHUTDOWN : Nat := 2

/-- Modelled from the spec: caller-visible reason codes pushed on the error
stack. Only their pairwise distinctness matters to the control flow (the
mapper compares against `SSL_R_UNKNOWN`). -/
def SSL_R_UNKNOWN : Nat := 100

/-- Modelled from the spec: reason code for a certificate verification
failure. -/
def SSL_R_CERTIFICATE_VERIFY_FAILED : Nat := 101

/-- Modelled from the spec: reason code for a hello-retry failure. -/
def SSL_R_NO_CIPHERS_AVAILABLE : Nat := 102

/-- Modelled from the spec: reason code for trailing data in a message. -/
def SSL_R_EXTRA_DATA_IN_MESSAGE : Nat := 103

/-- Modelled from the spec: reason code for no shared cipher. -/
def SSL_R_NO_SHARED_CIPHER : Nat := 104

/-- Modelled from the spec: reason code for a bad length argument. -/
def SSL_R_BAD_LENGTH : Nat := 105

/-- Modelled from the spec: reason code for an internal error. -/
def ERR_R_INTERNAL_ERROR : Nat := 107

/-- Modelled from the spec: reason code for an operation that should not
have been called. -/
def ERR_R_SHOULD_NOT_HAVE_BEEN_CALLED : Nat := 108

/-- The retry-intent field `ssl->internal->rwstate`:
`SSL_NOTHING` / `SSL_READING` / `SSL_WRITING`. -/
inductive Rwstate
  | nothing
  | reading
  | writing
deriving DecidableEq

/-- The internal structured error codes `ctx->error.code`
(`TLS13_ERR_*`); `other` stands for every code outside the mapper's
switch, all of which it treats alike. -/
inductive TLS13Err
  | verify_failed
  | hrr_failed
  | trailing_data
  | no_shared_cipher
  | other
deriving DecidableEq

/-- The per-connection state visible to `tls13_legacy.c`:
the `SSL` handle fields it reads and writes, plus the `tls13_ctx` fields.
`haveCtx` models `ssl->internal->tls13 != NULL`; `errStack` models the
error stack (`ERR_peek_error() != 0` iff the list is nonempty, most
recent first); `retryRead`/`retryWrite` model the BIO retry flags set by
`BIO_set_retry_read`/`BIO_set_retry_write`; `modePW` models the mode bit
`ssl->internal->mode & SSL_MODE_ENABLE_PARTIAL_WRITE`. -/
structure SSLState where
  haveCtx : Bool
  handshake_completed : Bool
  close_notify_sent : Bool
  close_notify_recv : Bool
  quiet_shutdown : Bool
  modePW : Bool
  fatal_alert : Nat
  errorCode : TLS13Err
  errStack : List Nat
  rwstate : Rwstate
  wnum : Nat
  shutdownMask : Nat
  retryRead : Bool
  retryWrite : Bool
deriving DecidableEq

/-- The `SSLerror` macro: push a reason code onto the error stack. -/
def SSLerror (s : SSLState) (reason : Nat) : SSLState :=
  { s with errStack := reason :: s.errStack }

/-- The switch in `tls13_legacy_error` mapping the internal error code to a
caller-visible reason code (`reason` starts at `SSL_R_UNKNOWN` and is left
there by every code outside the switch). -/
def reasonFor : TLS13Err → Nat
  | .verify_failed => SSL_R_CERTIFICATE_VERIFY_FAILED
  | .hrr_failed => SSL_R_NO_CIPHERS_AVAILABLE
  | .trailing_data => SSL_R_EXTRA_DATA_IN_MESSAGE
  | .no_shared_cipher => SSL_R_NO_SHARED_CIPHER
  | .other => SSL_R_UNKNOWN

/-- `tls13_legacy_error` (tls13_legacy.c:100): surface `ctx->error.code` on
the error stack, unless a fatal alert was already recorded, or the code is
unknown and something already pushed an error (the local `reason` of the
source is the hoisted `reasonFor`). -/
def tls13_legacy_error (s : SSLState) : SSLState :=
  if s.fatal_alert ≠ 0 then s
  else if reasonFor s.errorCode = SSL_R_UNKNOWN ∧ s.errStack ≠ [] then s
  else SSLerror s (reasonFor s.errorCode)

/-- `tls13_legacy_return_code` (tls13_legacy.c:133): translate an internal
outcome into the legacy return contract, updating `rwstate` and the BIO
retry flags. Every branch after the two positive tests goes through the
`rwstate = SSL_NOTHING` assignment first; the two poll branches then
overwrite it, so it is substituted into each branch here. -/
def tls13_legacy_return_code (s : SSLState) (ret : Int) : Int × SSLState :=
  if ret > INT_MAX then (-1, SSLerror s ERR_R_INTERNAL_ERROR)
  else if ret > 0 then (ret, s)
  else if ret = TLS13_IO_EOF then (0, { s with rwstate := Rwstate.nothing })
  else if ret = TLS13_IO_FAILURE then
    (-1, tls13_legacy_error { s with rwstate := Rwstate.nothing })
  else if ret = TLS13_IO_ALERT then
    (-1, tls13_legacy_error { s with rwstate := Rwstate.nothing })
  else if ret = TLS13_IO_WANT_POLLIN then
    (-1, { s with retryRead := true, rwstate := Rwstate.reading })
  else if ret = TLS13_IO_WANT_POLLOUT then
    (-1, { s with retryWrite := true, rwstate := Rwstate.writing })
  else if ret = TLS13_IO_WANT_RETRY then
    (-1, SSLerror { s with rwstate := Rwstate.nothing } ERR_R_INTERNAL_ERROR)
  else (-1, SSLerror { s with rwstate := Rwstate.nothing } ERR_R_INTERNAL_ERROR)

/-- `tls13_legacy_pending` (tls13_legacy.c:178). `pendingRet` is the value
the external `tls13_pending_application_data(ctx->rl)` would return. -/
def tls13_legacy_pending (s : SSLState) (pendingRet : Int) : Int :=
  if !s.haveCtx then 0
  else if pendingRet < 0 ∨ pendingRet > INT_MAX then 0
  else pendingRet

/-- `tls13_legacy_read_bytes` (tls13_legacy.c:194). `hsRet` is the value
the external handshake driver `ssl->internal->handshake_func(ssl)` would
return (its own state changes are outside this fragment); `readRet` is the
outcome of the external `tls13_peek_application_data` or
`tls13_read_application_data` call selected by `peek`. The third component
counts the record-layer application-data calls performed. -/
def tls13_legacy_read_bytes (s : SSLState) (type : Int) (len : Int)
    (peek : Bool) (hsRet : Int) (readRet : Int) : Int × SSLState × Nat :=
  if !s.haveCtx || !s.handshake_completed then
    if hsRet ≤ 0 then (hsRet, s, 0)
    else
      let t := tls13_legacy_return_code s TLS13_IO_WANT_POLLIN
      (t.1, t.2, 0)
  else if type ≠ SSL3_RT_APPLICATION_DATA then
    (-1, SSLerror s ERR_R_SHOULD_NOT_HAVE_BEEN_CALLED, 0)
  else if len < 0 then
    (-1, SSLerror s SSL_R_BAD_LENGTH, 0)
  else
    let t := tls13_legacy_return_code s readRet
    (t.1, t.2, 1)

/-- Wraparound of `size_t` (64-bit) addition. -/
def addW (a b : Nat) : Nat := (a + b) % 2 ^ 64

/-- Wraparound of `size_t` (64-bit) subtraction. -/
def subW (a b : Nat) : Nat := (a + (2 ^ 64 - b % 2 ^ 64)) % 2 ^ 64

/-- Conversion of a `size_t` value to signed 32-bit `int` on return
(two's-complement truncation). -/
def intOfSizeT (x : Nat) : Int :=
  if x % 2 ^ 32 < 2 ^ 31 then ((x % 2 ^ 32 : Nat) : Int)
  else ((x % 2 ^ 32 : Nat) : Int) - 2 ^ 32

/-- The `for (;;)` loop of `tls13_legacy_write_bytes` (tls13_legacy.c:265):
`outs` is the oracle of outcomes for the successive
`tls13_write_application_data(ctx->rl, &buf[sent], n)` calls; `sent` and
`n` are the `size_t` locals. Returns `none` only when the oracle is too
short for the execution. The trace lists each record-layer call as
(offset into the buffer, length requested). -/
def tls13_write_loop (outs : List Int) (sent n : Nat) (s : SSLState) :
    Option (Int × SSLState × List (Nat × Nat)) :=
  if n = 0 then
    some (intOfSizeT sent, { s with wnum := 0 }, [])
  else
    match outs with
    | [] => none
    | r :: rest =>
      if r ≤ 0 then
        let t := tls13_legacy_return_code { s with wnum := sent } r
        some (t.1, t.2, [(sent, n)])
      else
        match tls13_write_loop rest (addW sent r.toNat) (subW n r.toNat) s with
        | none => none
        | some (rc, s2, tr) => some (rc, s2, (sent, n) :: tr)

/-- `tls13_legacy_write_bytes` (tls13_legacy.c:223). `hsRet` is the
handshake driver's would-be outcome; `outs` the oracle of outcomes for the
record-layer write calls. The trace lists each
`tls13_write_application_data` call as (offset, length). -/
def tls13_legacy_write_bytes (s : SSLState) (type : Int) (len : Int)
    (hsRet : Int) (outs : List Int) :
    Option (Int × SSLState × List (Nat × Nat)) :=
  if !s.haveCtx || !s.handshake_completed then
    if hsRet ≤ 0 then some (hsRet, s, [])
    else
      let t := tls13_legacy_return_code s TLS13_IO_WANT_POLLOUT
      some (t.1, t.2, [])
  else if type ≠ SSL3_RT_APPLICATION_DATA then
    some (-1, SSLerror s ERR_R_SHOULD_NOT_HAVE_BEEN_CALLED, [])
  else if len < 0 then
    some (-1, SSLerror s SSL_R_BAD_LENGTH, [])
  else if s.modePW then
    match outs with
    | [] => none
    | r :: _ =>
      let t := tls13_legacy_return_code s r
      some (t.1, t.2, [(0, len.toNat)])
  else
    let sent := s.wnum
    if len.toNat < sent then some (-1, SSLerror s SSL_R_BAD_LENGTH, [])
    else tls13_write_loop outs sent (len.toNat - sent) s

/-- Which external calls a shutdown invocation performed. -/
structure ShutdownCalls where
  sentAlert : Bool
  flushed : Bool
  didRead : Bool
deriving DecidableEq

/-- `tls13_legacy_shutdown` (tls13_legacy.c:280). `alertRet` is the
external `tls13_send_alert` outcome (consulted only when the alert is
actually sent), `flushRet` the `tls13_record_layer_send_pending` outcome,
and `readRet` the `tls13_read_application_data` outcome for the drain
read. `readSetsRecv` says whether that read's processing inside the record
layer marks `ctx->close_notify_recv` (the record layer sets it when the
peer's close-notify alert is consumed). -/
def tls13_legacy_shutdown (s : SSLState) (alertRet flushRet readRet : Int)
    (readSetsRecv : Bool) : Int × SSLState × ShutdownCalls :=
  if !s.haveCtx || s.quiet_shutdown then
    (1, { s with shutdownMask := SSL_SENT_SHUTDOWN ||| SSL_RECEIVED_SHUTDOWN },
      ⟨false, false, false⟩)
  else
    let doAlert := !s.close_notify_sent
    let s1 := if doAlert then { s with close_notify_sent := true } else s
    if doAlert ∧ alertRet < 0 then
      let t := tls13_legacy_return_code s1 alertRet
      (t.1, t.2, ⟨doAlert, false, false⟩)
    else if flushRet ≠ TLS13_IO_SUCCESS then
      let t := tls13_legacy_return_code s1 flushRet
      (t.1, t.2, ⟨doAlert, true, false⟩)
    else if !s1.close_notify_recv then
      let s2 := if readSetsRecv then { s1 with close_notify_recv := true } else s1
      let ret := if readRet > 0 then TLS13_IO_WANT_POLLIN else readRet
      if ret ≠ TLS13_IO_EOF then
        let t := tls13_legacy_return_code s2 ret
        (t.1, t.2, ⟨doAlert, true, true⟩)
      else if s2.close_notify_recv then (1, s2, ⟨doAlert, true, true⟩)
      else (0, s2, ⟨doAlert, true, true⟩)
    else (1, s1, ⟨doAlert, true, false⟩)

/-- Repeated invocations of the write path with fixed arguments: each call
gets its own record-layer oracle; per call, record the legacy return value,
the carried count `wnum` after the call, and the call's record-layer
trace. -/
def runWriteCalls (type len hs : Int) :
    SSLState → List (List Int) → List (Int × Nat × List (Nat × Nat))
  | _, [] => []
  | s, o :: os =>
    match tls13_legacy_write_bytes s type len hs o with
    | none => []
    | some (rc, s2, tr) => (rc, s2.wnum, tr) :: runWriteCalls type len hs s2 os

/-- Oracle shape for the resumable-strict-write scenario: acceptance `a i`
arrives on call `i`, every call but the last then sees a
retry-when-writable outcome, and the last acceptance completes the
buffer. -/
def mkRetryCalls : List Nat → List (List Int)
  | [] => []
  | [x] => [[Int.ofNat x]]
  | x :: y :: rest => [Int.ofNat x, TLS13_IO_WANT_POLLOUT] :: mkRetryCalls (y :: rest)

/-- The (offset, length) pairs of the successive record-layer calls made by
the write loop while it consumes the positive acceptances `ps`. -/
def loopOffsets (sent n : Nat) : List Nat → List (Nat × Nat)
  | [] => []
  | x :: rest => (sent, n) :: loopOffsets (sent + x) (n - x) rest

/-- Expected per-call observations of the strict-write scenario: every
intermediate call returns -1 carrying the accumulated count, the final
call returns the full length and resets the carried count to zero. -/
def expectedRun (L : Nat) : Nat → List Nat → List (Int × Nat × List (Nat × Nat))
  | _, [] => []
  | base, [x] => [(Int.ofNat L, 0, [(base, x)])]
  | base, x :: y :: rest =>
    (-1, base + x, [(base, L - base), (base + x, L - base - x)]) ::
      expectedRun L (base + x) (y :: rest)

/-- A freshly established connection state used by concrete witnesses. -/
def sFresh : SSLState :=
  { haveCtx := true, handshake_completed := true, close_notify_sent := false,
    close_notify_recv := false, quiet_shutdown := false, modePW := false,
    fatal_alert := 0, errorCode := TLS13Err.other, errStack := [],
    rwstate := Rwstate.nothing, wnum := 0, shutdownMask := 0,
    retryRead := false, retryWrite := false }

/-- Concrete state with the retry intent at wants-read. -/
def sReading : SSLState := { sFresh with rwstate := Rwstate.reading }

/-- Concrete state with a known error code and a diagnostic already pushed
by a lower layer. -/
def sVerifyPushed : SSLState :=
  { sFresh with errorCode := TLS13Err.verify_failed, errStack := [42] }

/-- Concrete state with a fatal alert recorded and a known error code. -/
def sFatal : SSLState :=
  { sFresh with
    fatal_alert := 2
    errorCode := TLS13Err.verify_failed
    errStack := [42] }

/-- Concrete state with both close-notify directions already marked
closed. -/
def sBothClosed : SSLState :=
  { sFresh with close_notify_sent := true, close_notify_recv := true }

/-- Concrete state with a carried sent count of five. -/
def sCarried5 : SSLState := { sFresh with wnum := 5 }

/-- Concrete state still in the handshake. -/
def sHandshaking : SSLState := { sFresh with handshake_completed := false }

/-!
Helper lemmas.
-/

theorem error_fields (s : SSLState) :
    (tls13_legacy_error s).haveCtx = s.haveCtx ∧
    (tls13_legacy_error s).handshake_completed = s.handshake_completed ∧
    (tls13_legacy_error s).quiet_shutdown = s.quiet_shutdown ∧
    (tls13_legacy_error s).modePW = s.modePW ∧
    (tls13_legacy_error s).close_notify_sent = s.close_notify_sent ∧
    (tls13_legacy_error s).close_notify_recv = s.close_notify_recv ∧
    (tls13_legacy_error s).wnum = s.wnum ∧
    (tls13_legacy_error s).rwstate = s.rwstate := by
  unfold tls13_legacy_error SSLerror
  split_ifs <;> simp

theorem return_code_fields (s : SSLState) (ret : Int) :
    (tls13_legacy_return_code s ret).2.haveCtx = s.haveCtx ∧
    (tls13_legacy_return_code s ret).2.handshake_completed = s.handshake_completed ∧
    (tls13_legacy_return_code s ret).2.quiet_shutdown = s.quiet_shutdown ∧
    (tls13_legacy_return_code s ret).2.modePW = s.modePW ∧
    (tls13_legacy_return_code s ret).2.close_notify_sent = s.close_notify_sent ∧
    (tls13_legacy_return_code s ret).2.close_notify_recv = s.close_notify_recv ∧
    (tls13_legacy_return_code s ret).2.wnum = s.wnum := by
  unfold tls13_legacy_return_code
  split_ifs <;>
    simp [error_fields ({ s with rwstate := Rwstate.nothing }), SSLerror]

theorem return_code_pollout (s : SSLState) :
    tls13_legacy_return_code s TLS13_IO_WANT_POLLOUT =
      (-1, { s with retryWrite := true, rwstate := Rwstate.writing }) := by
  unfold tls13_legacy_return_code
  norm_num [TLS13_IO_WANT_POLLOUT, TLS13_IO_EOF, TLS13_IO_FAILURE, TLS13_IO_ALERT,
    TLS13_IO_WANT_POLLIN, INT_MAX]

theorem return_code_pollin (s : SSLState) :
    tls13_legacy_return_code s TLS13_IO_WANT_POLLIN =
      (-1, { s with retryRead := true, rwstate := Rwstate.reading }) := by
  unfold tls13_legacy_return_code
  norm_num [TLS13_IO_WANT_POLLIN, TLS13_IO_EOF, TLS13_IO_FAILURE, TLS13_IO_ALERT,
    INT_MAX]

theorem return_code_nonpos_ne_one (s : SSLState) (ret : Int) (h : ret ≤ 0) :
    (tls13_legacy_return_code s ret).1 ≠ 1 := by
  unfold tls13_legacy_return_code
  split_ifs <;> simp <;> omega

theorem return_code_eof (s : SSLState) :
    tls13_legacy_return_code s TLS13_IO_EOF =
      (0, { s with rwstate := Rwstate.nothing }) := by
  unfold tls13_legacy_return_code
  norm_num [TLS13_IO_EOF, INT_MAX]

theorem return_code_failure (s : SSLState) :
    tls13_legacy_return_code s TLS13_IO_FAILURE =
      (-1, tls13_legacy_error { s with rwstate := Rwstate.nothing }) := by
  unfold tls13_legacy_return_code
  norm_num [TLS13_IO_FAILURE, TLS13_IO_EOF, INT_MAX]

theorem return_code_alert (s : SSLState) :
    tls13_legacy_return_code s TLS13_IO_ALERT =
      (-1, tls13_legacy_error { s with rwstate := Rwstate.nothing }) := by
  unfold tls13_legacy_return_code
  norm_num [TLS13_IO_ALERT, TLS13_IO_FAILURE, TLS13_IO_EOF, INT_MAX]

theorem return_code_want_retry (s : SSLState) :
    tls13_legacy_return_code s TLS13_IO_WANT_RETRY =
      (-1, SSLerror { s with rwstate := Rwstate.nothing } ERR_R_INTERNAL_ERROR) := by
  unfold tls13_legacy_return_code
  norm_num [TLS13_IO_WANT_RETRY, TLS13_IO_WANT_POLLIN, TLS13_IO_WANT_POLLOUT,
    TLS13_IO_ALERT, TLS13_IO_FAILURE, TLS13_IO_EOF, INT_MAX]

theorem error_stack_ne_nil (s : SSLState)
    (h : s.fatal_alert ≠ 0 → s.errStack ≠ []) :
    (tls13_legacy_error s).errStack ≠ [] := by
  unfold tls13_legacy_error SSLerror
  split_ifs with h1 h2
  · exact h h1
  · exact h2.2
  · simp

/-!
Theorems for the claims.
-/

/-- C9: the pending-data query returns 0 whenever no handshake context
exists or whenever the engine's reported count is negative or exceeds
INT_MAX; otherwise it returns exactly the engine's count; it never returns
a negative value. -/
theorem claim_C9 (s : SSLState) (pendingRet : Int) :
    (s.haveCtx = false → tls13_legacy_pending s pendingRet = 0) ∧
    (pendingRet < 0 ∨ pendingRet > INT_MAX → tls13_legacy_pending s pendingRet = 0) ∧
    (s.haveCtx = true → 0 ≤ pendingRet → pendingRet ≤ INT_MAX →
      tls13_legacy_pending s pendingRet = pendingRet) ∧
    0 ≤ tls13_legacy_pending s pendingRet := by
  unfold tls13_legacy_pending
  cases hb : s.haveCtx <;> split_ifs with h <;> simp_all <;> omega

/-- C9 witness: a live context with three buffered bytes reports three. -/
theorem claim_C9_witness : tls13_legacy_pending sFresh 3 = 3 :=
  (claim_C9 sFresh 3).2.2.1 (by decide) (by decide) (by decide)

/-- C7: in strict (non-partial-write) mode, a requested length smaller
than the carried sent count fails at once with a bad-length diagnostic and
-1, and the record layer is never invoked (empty call trace). -/
theorem claim_C7 (s : SSLState) (len hsRet : Int) (outs : List Int)
    (hctx : s.haveCtx = true) (hhs : s.handshake_completed = true)
    (hpw : s.modePW = false) (hlen : 0 ≤ len) (hlt : len.toNat < s.wnum) :
    tls13_legacy_write_bytes s SSL3_RT_APPLICATION_DATA len hsRet outs =
      some (-1, SSLerror s SSL_R_BAD_LENGTH, []) := by
  unfold tls13_legacy_write_bytes
  rw [hctx, hhs, hpw]
  rw [if_neg (by simp), if_neg (by simp), if_neg (not_lt.mpr hlen),
    if_neg (by simp), if_pos hlt]

/-- C7 witness: carried count 5, shrunk request 3. -/
theorem claim_C7_witness :
    tls13_legacy_write_bytes sCarried5 SSL3_RT_APPLICATION_DATA 3 0 [] =
      some (-1, SSLerror sCarried5 SSL_R_BAD_LENGTH, []) :=
  claim_C7 sCarried5 3 0 [] (by decide) (by decide) (by decide)
    (by decide) (by decide)

/-- C10: in strict mode with the handshake completed and no carried count,
a zero-length write returns 0 with no record-layer call, and 0 is exactly
the value the translator produces for the EOF (clean end) outcome. -/
theorem claim_C10 (s : SSLState) (hsRet : Int) (outs : List Int)
    (hctx : s.haveCtx = true) (hhs : s.handshake_completed = true)
    (hpw : s.modePW = false) (hw : s.wnum = 0) :
    tls13_legacy_write_bytes s SSL3_RT_APPLICATION_DATA 0 hsRet outs =
      some (0, { s with wnum := 0 }, []) ∧
    (tls13_legacy_return_code s TLS13_IO_EOF).1 = 0 := by
  constructor
  · unfold tls13_legacy_write_bytes
    rw [hctx, hhs, hpw, hw]
    norm_num
    unfold tls13_write_loop
    norm_num [intOfSizeT]
    exact ⟨hctx, hhs, hpw⟩
  · unfold tls13_legacy_return_code
    norm_num [TLS13_IO_EOF, INT_MAX]

/-- C10 witness: the fresh established state. -/
theorem claim_C10_witness :
    tls13_legacy_write_bytes sFresh SSL3_RT_APPLICATION_DATA 0 0 [] =
      some (0, { sFresh with wnum := 0 }, []) ∧
    (tls13_legacy_return_code sFresh TLS13_IO_EOF).1 = 0 :=
  claim_C10 sFresh 0 [] (by decide) (by decide) (by decide) (by decide)

/-- C4 counterexample: the claim says a positive byte count clears the
retry intent to NONE, but the translator returns before the
`rwstate = SSL_NOTHING` assignment: with the retry intent at
wants-read and internal outcome 5 it returns 5 and leaves the retry
intent at wants-read. -/
theorem claim_C4_cex :
    (tls13_legacy_return_code sReading 5).1 = 5 ∧
    (tls13_legacy_return_code sReading 5).2.rwstate = Rwstate.reading ∧
    Rwstate.reading ≠ Rwstate.nothing := by decide

/-- C4 (amended): for every internal outcome that is a byte count greater
than zero and at most INT_MAX, the translator returns that same byte count
and leaves the connection state — including the retry intent — entirely
unchanged. -/
theorem claim_C4 (s : SSLState) (ret : Int) (h1 : 0 < ret) (h2 : ret ≤ INT_MAX) :
    tls13_legacy_return_code s ret = (ret, s) := by
  unfold tls13_legacy_return_code
  rw [if_neg (not_lt.mpr h2), if_pos h1]

/-- C4 witness: outcome 7 passes through unchanged. -/
theorem claim_C4_witness : tls13_legacy_return_code sFresh 7 = (7, sFresh) :=
  claim_C4 sFresh 7 (by decide) (by decide)

/-- C5 counterexample: the claim says no new diagnostic is emitted when
some lower layer has already pushed one, but with a known error code
(verification failure) and a non-empty error stack the mapper still pushes
its reason code, yielding two diagnostics for one failure. -/
theorem claim_C5_cex :
    (tls13_legacy_error sVerifyPushed).errStack = [SSL_R_CERTIFICATE_VERIFY_FAILED, 42] ∧
    (tls13_legacy_error sVerifyPushed).errStack ≠ sVerifyPushed.errStack := by decide

/-- C5 (amended): the error surface mapper emits no new diagnostic when a
fatal alert has already been recorded; when the internal code maps to the
unknown reason and some lower layer has already pushed a diagnostic it
also emits nothing; otherwise it emits the reason code given by the
mapping (verification failure, hello-retry failure, trailing data, no
shared cipher, unknown), so at most one diagnostic is added per call. -/
theorem claim_C5 (s : SSLState) :
    (s.fatal_alert ≠ 0 → tls13_legacy_error s = s) ∧
    (s.fatal_alert = 0 → reasonFor s.errorCode ≠ SSL_R_UNKNOWN →
      tls13_legacy_error s = SSLerror s (reasonFor s.errorCode)) ∧
    (s.fatal_alert = 0 → reasonFor s.errorCode = SSL_R_UNKNOWN → s.errStack ≠ [] →
      tls13_legacy_error s = s) ∧
    (s.fatal_alert = 0 → reasonFor s.errorCode = SSL_R_UNKNOWN → s.errStack = [] →
      tls13_legacy_error s = SSLerror s SSL_R_UNKNOWN) ∧
    reasonFor TLS13Err.verify_failed = SSL_R_CERTIFICATE_VERIFY_FAILED ∧
    reasonFor TLS13Err.hrr_failed = SSL_R_NO_CIPHERS_AVAILABLE ∧
    reasonFor TLS13Err.trailing_data = SSL_R_EXTRA_DATA_IN_MESSAGE ∧
    reasonFor TLS13Err.no_shared_cipher = SSL_R_NO_SHARED_CIPHER ∧
    (tls13_legacy_error s).errStack.length ≤ s.errStack.length + 1 := by
  unfold tls13_legacy_error SSLerror
  split_ifs <;> simp_all [reasonFor]

/-- C5 witness: with a fatal alert recorded, the mapper changes nothing. -/
theorem claim_C5_witness : tls13_legacy_error sFatal = sFatal :=
  (claim_C5 sFatal).1 (by decide)

/-- C8: the translator treats the internal-only WANT_RETRY sentinel as an
internal error (pushes an internal-error diagnostic and returns -1),
treats a byte count above INT_MAX as an internal error rather than
success, maps EOF to 0, maps FAILURE and the fatal-alert outcome to -1
while invoking the error surface mapper (so a diagnostic is available
afterwards, given that a recorded fatal alert implies one is already on
the stack), and maps WANT_POLLIN / WANT_POLLOUT to -1 while setting the
retry intent to wants-read / wants-write. -/
theorem claim_C8 (s : SSLState) (ret : Int) :
    tls13_legacy_return_code s TLS13_IO_WANT_RETRY =
      (-1, SSLerror { s with rwstate := Rwstate.nothing } ERR_R_INTERNAL_ERROR) ∧
    (ret > INT_MAX →
      tls13_legacy_return_code s ret = (-1, SSLerror s ERR_R_INTERNAL_ERROR)) ∧
    tls13_legacy_return_code s TLS13_IO_EOF =
      (0, { s with rwstate := Rwstate.nothing }) ∧
    tls13_legacy_return_code s TLS13_IO_FAILURE =
      (-1, tls13_legacy_error { s with rwstate := Rwstate.nothing }) ∧
    tls13_legacy_return_code s TLS13_IO_ALERT =
      (-1, tls13_legacy_error { s with rwstate := Rwstate.nothing }) ∧
    ((s.fatal_alert ≠ 0 → s.errStack ≠ []) →
      (tls13_legacy_return_code s TLS13_IO_FAILURE).2.errStack ≠ [] ∧
      (tls13_legacy_return_code s TLS13_IO_ALERT).2.errStack ≠ []) ∧
    tls13_legacy_return_code s TLS13_IO_WANT_POLLIN =
      (-1, { s with retryRead := true, rwstate := Rwstate.reading }) ∧
    tls13_legacy_return_code s TLS13_IO_WANT_POLLOUT =
      (-1, { s with retryWrite := true, rwstate := Rwstate.writing }) := by
  refine ⟨return_code_want_retry s, ?_, return_code_eof s, return_code_failure s,
    return_code_alert s, ?_, return_code_pollin s, return_code_pollout s⟩
  · intro h
    unfold tls13_legacy_return_code
    rw [if_pos h]
  · intro h
    rw [return_code_failure, return_code_alert]
    exact ⟨error_stack_ne_nil _ h, error_stack_ne_nil _ h⟩

/-- C8 witness: a fresh state, with the overflow clause at INT_MAX + 1. -/
theorem claim_C8_witness :
    tls13_legacy_return_code sFresh (INT_MAX + 1) =
      (-1, SSLerror sFresh ERR_R_INTERNAL_ERROR) ∧
    (tls13_legacy_return_code sFresh TLS13_IO_FAILURE).2.errStack ≠ [] :=
  ⟨(claim_C8 sFresh (INT_MAX + 1)).2.1 (by norm_num [INT_MAX]),
   ((claim_C8 sFresh (INT_MAX + 1)).2.2.2.2.2.1 (by decide)).1⟩

/-- C6: whenever no handshake context exists or the handshake is not yet
completed, both the read and the write path drive the handshake instead of
touching application data (no record-layer application-data call),
regardless of the requested message type and length: a non-positive
handshake outcome is returned as-is, and a positive one makes read return
the translated retry-waiting-for-read result and write the translated
retry-waiting-for-write result. -/
theorem claim_C6 (s : SSLState) (type len hsRet readRet : Int) (peek : Bool)
    (outs : List Int)
    (hgate : s.haveCtx = false ∨ s.handshake_completed = false) :
    (tls13_legacy_read_bytes s type len peek hsRet readRet).2.2 = 0 ∧
    (hsRet ≤ 0 →
      tls13_legacy_read_bytes s type len peek hsRet readRet = (hsRet, s, 0)) ∧
    (0 < hsRet →
      tls13_legacy_read_bytes s type len peek hsRet readRet =
        ((tls13_legacy_return_code s TLS13_IO_WANT_POLLIN).1,
         (tls13_legacy_return_code s TLS13_IO_WANT_POLLIN).2, 0)) ∧
    ((tls13_legacy_return_code s TLS13_IO_WANT_POLLIN).1 = -1 ∧
     (tls13_legacy_return_code s TLS13_IO_WANT_POLLIN).2.rwstate = Rwstate.reading) ∧
    (∀ res s2 tr, tls13_legacy_write_bytes s type len hsRet outs = some (res, s2, tr) →
      tr = []) ∧
    (hsRet ≤ 0 →
      tls13_legacy_write_bytes s type len hsRet outs = some (hsRet, s, [])) ∧
    (0 < hsRet →
      tls13_legacy_write_bytes s type len hsRet outs =
        some ((tls13_legacy_return_code s TLS13_IO_WANT_POLLOUT).1,
          (tls13_legacy_return_code s TLS13_IO_WANT_POLLOUT).2, [])) ∧
    ((tls13_legacy_return_code s TLS13_IO_WANT_POLLOUT).1 = -1 ∧
     (tls13_legacy_return_code s TLS13_IO_WANT_POLLOUT).2.rwstate = Rwstate.writing) := by
  have hg : (!s.haveCtx || !s.handshake_completed) = true := by
    rcases hgate with h | h <;> simp [h]
  refine ⟨?_, ?_, ?_, ?_, ?_, ?_, ?_, ?_⟩
  · unfold tls13_legacy_read_bytes
    rw [if_pos hg]
    split_ifs <;> rfl
  · intro h
    unfold tls13_legacy_read_bytes
    rw [if_pos hg, if_pos h]
  · intro h
    unfold tls13_legacy_read_bytes
    rw [if_pos hg, if_neg (not_le.mpr h)]
  · rw [return_code_pollin]
    exact ⟨rfl, rfl⟩
  · intro res s2 tr hEq
    unfold tls13_legacy_write_bytes at hEq
    rw [if_pos hg] at hEq
    split_ifs at hEq <;> simp_all
  · intro h
    unfold tls13_legacy_write_bytes
    rw [if_pos hg, if_pos h]
  · intro h
    unfold tls13_legacy_write_bytes
    rw [if_pos hg, if_neg (not_le.mpr h)]
  · rw [return_code_pollout]
    exact ⟨rfl, rfl⟩

/-- C6 witness: a handshaking state, read and write with positive
handshake outcome. -/
theorem claim_C6_witness :
    tls13_legacy_read_bytes sHandshaking 23 4 false 1 0 =
      ((tls13_legacy_return_code sHandshaking TLS13_IO_WANT_POLLIN).1,
       (tls13_legacy_return_code sHandshaking TLS13_IO_WANT_POLLIN).2, 0) ∧
    tls13_legacy_write_bytes sHandshaking 23 4 1 [] =
      some ((tls13_legacy_return_code sHandshaking TLS13_IO_WANT_POLLOUT).1,
        (tls13_legacy_return_code sHandshaking TLS13_IO_WANT_POLLOUT).2, []) :=
  ⟨(claim_C6 sHandshaking 23 4 1 0 false [] (Or.inr (by decide))).2.2.1 (by decide),
   (claim_C6 sHandshaking 23 4 1 0 false [] (Or.inr (by decide))).2.2.2.2.2.2.1
     (by decide)⟩

/-!
Shutdown helper lemmas: the phases of `tls13_legacy_shutdown`.
-/

theorem shutdown_trivial (s : SSLState) (a f r : Int) (b : Bool)
    (hc : s.haveCtx = false ∨ s.quiet_shutdown = true) :
    tls13_legacy_shutdown s a f r b =
      (1, { s with shutdownMask := SSL_SENT_SHUTDOWN ||| SSL_RECEIVED_SHUTDOWN },
        ⟨false, false, false⟩) := by
  unfold tls13_legacy_shutdown
  have hg : (!s.haveCtx || s.quiet_shutdown) = true := by
    rcases hc with h | h <;> simp [h]
  rw [if_pos hg]

theorem shutdown_already_done (s : SSLState) (a f r : Int) (b : Bool)
    (hc : s.haveCtx = true) (hq : s.quiet_shutdown = false)
    (hs : s.close_notify_sent = true) (hr : s.close_notify_recv = true)
    (hf : f = TLS13_IO_SUCCESS) :
    tls13_legacy_shutdown s a f r b = (1, s, ⟨false, true, false⟩) := by
  unfold tls13_legacy_shutdown
  rw [hc, hq]
  rw [if_neg (by simp)]
  simp [hs, hr, hf, TLS13_IO_SUCCESS]

theorem shutdown_alert_fail (s : SSLState) (a f r : Int) (b : Bool)
    (hc : s.haveCtx = true) (hq : s.quiet_shutdown = false)
    (hs : s.close_notify_sent = false) (ha : a < 0) :
    tls13_legacy_shutdown s a f r b =
      ((tls13_legacy_return_code { s with close_notify_sent := true } a).1,
       (tls13_legacy_return_code { s with close_notify_sent := true } a).2,
       ⟨true, false, false⟩) := by
  unfold tls13_legacy_shutdown
  rw [hc, hq]
  rw [if_neg (by simp)]
  simp [hs, ha]

theorem shutdown_flush_fail (s : SSLState) (a f r : Int) (b : Bool)
    (hc : s.haveCtx = true) (hq : s.quiet_shutdown = false)
    (hs : s.close_notify_sent = true) (hf : f ≠ TLS13_IO_SUCCESS) :
    tls13_legacy_shutdown s a f r b =
      ((tls13_legacy_return_code s f).1, (tls13_legacy_return_code s f).2,
       ⟨false, true, false⟩) := by
  unfold tls13_legacy_shutdown
  rw [hc, hq]
  rw [if_neg (by simp)]
  simp [hs, hf]

theorem shutdown_recv_pos (s : SSLState) (a f r : Int) (b : Bool)
    (hc : s.haveCtx = true) (hq : s.quiet_shutdown = false)
    (hs : s.close_notify_sent = true) (hr : s.close_notify_recv = false)
    (hf : f = TLS13_IO_SUCCESS) (hpos : 0 < r) :
    tls13_legacy_shutdown s a f r b =
      ((tls13_legacy_return_code
          (if b then { s with close_notify_recv := true } else s)
          TLS13_IO_WANT_POLLIN).1,
       (tls13_legacy_return_code
          (if b then { s with close_notify_recv := true } else s)
          TLS13_IO_WANT_POLLIN).2,
       ⟨false, true, true⟩) := by
  unfold tls13_legacy_shutdown
  rw [hc, hq]
  rw [if_neg (by simp)]
  simp only [hs, hr, hf, TLS13_IO_SUCCESS, TLS13_IO_WANT_POLLIN, TLS13_IO_EOF]
  norm_num [hpos]
  split_ifs <;> simp_all

theorem shutdown_recv_eof (s : SSLState) (a f r : Int) (b : Bool)
    (hc : s.haveCtx = true) (hq : s.quiet_shutdown = false)
    (hs : s.close_notify_sent = true) (hr : s.close_notify_recv = false)
    (hf : f = TLS13_IO_SUCCESS) (he : r = TLS13_IO_EOF) :
    tls13_legacy_shutdown s a f r b =
      ((if b then 1 else 0),
       (if b then { s with close_notify_recv := true } else s),
       ⟨false, true, true⟩) := by
  unfold tls13_legacy_shutdown
  rw [hc, hq]
  rw [if_neg (by simp)]
  simp only [hs, hr, hf, he, TLS13_IO_SUCCESS, TLS13_IO_EOF]
  norm_num
  split_ifs <;> simp_all

theorem shutdown_recv_other (s : SSLState) (a f r : Int) (b : Bool)
    (hc : s.haveCtx = true) (hq : s.quiet_shutdown = false)
    (hs : s.close_notify_sent = true) (hr : s.close_notify_recv = false)
    (hf : f = TLS13_IO_SUCCESS) (hnp : r ≤ 0) (hne : r ≠ TLS13_IO_EOF) :
    tls13_legacy_shutdown s a f r b =
      ((tls13_legacy_return_code
          (if b then { s with close_notify_recv := true } else s) r).1,
       (tls13_legacy_return_code
          (if b then { s with close_notify_recv := true } else s) r).2,
       ⟨false, true, true⟩) := by
  unfold tls13_legacy_shutdown
  rw [hc, hq]
  rw [if_neg (by simp)]
  simp only [hs, hr, hf, Bool.not_true, Bool.not_false]
  norm_num
  have hrr : (if 0 < r then TLS13_IO_WANT_POLLIN else r) = r := if_neg (by omega)
  simp [hr, hrr, hne, hs, hc, hq]

theorem shutdown_send_reduce (s : SSLState) (a f r : Int) (b : Bool)
    (hc : s.haveCtx = true) (hq : s.quiet_shutdown = false)
    (hs : s.close_notify_sent = false) (ha : 0 ≤ a) :
    (tls13_legacy_shutdown s a f r b).1 =
      (tls13_legacy_shutdown { s with close_notify_sent := true } a f r b).1 ∧
    (tls13_legacy_shutdown s a f r b).2.1 =
      (tls13_legacy_shutdown { s with close_notify_sent := true } a f r b).2.1 := by
  unfold tls13_legacy_shutdown
  rw [hc, hq]
  simp only [hs, Bool.not_true, Bool.not_false, Bool.or_self, Bool.false_or,
    Bool.or_false]
  norm_num
  rw [if_neg (by omega : ¬(a < 0))]
  split_ifs <;> simp_all
theorem shutdown_sound_sent (s : SSLState) (a f r : Int) (b : Bool)
    (hc : s.haveCtx = true) (hq : s.quiet_shutdown = false)
    (hs : s.close_notify_sent = true) (hf0 : f ≤ 0)
    (h1 : (tls13_legacy_shutdown s a f r b).1 = 1) :
    (tls13_legacy_shutdown s a f r b).2.1.close_notify_sent = true ∧
    (tls13_legacy_shutdown s a f r b).2.1.close_notify_recv = true := by
  by_cases hf : f = TLS13_IO_SUCCESS
  · by_cases hr : s.close_notify_recv = true
    · rw [shutdown_already_done s a f r b hc hq hs hr hf]
      exact ⟨hs, hr⟩
    · replace hr : s.close_notify_recv = false := by simp_all
      by_cases hpos : 0 < r
      · rw [shutdown_recv_pos s a f r b hc hq hs hr hf hpos] at h1
        rw [return_code_pollin] at h1
        simp at h1
      · by_cases he : r = TLS13_IO_EOF
        · rw [shutdown_recv_eof s a f r b hc hq hs hr hf he] at h1 ⊢
          cases b
          · simp at h1
          · simp [hs]
        · rw [shutdown_recv_other s a f r b hc hq hs hr hf (by omega) he] at h1
          exact absurd h1 (return_code_nonpos_ne_one _ r (by omega))
  · rw [shutdown_flush_fail s a f r b hc hq hs hf] at h1
    exact absurd h1 (return_code_nonpos_ne_one s f hf0)

theorem shutdown_sound (s : SSLState) (a f r : Int) (b : Bool)
    (hc : s.haveCtx = true) (hq : s.quiet_shutdown = false) (hf0 : f ≤ 0)
    (h1 : (tls13_legacy_shutdown s a f r b).1 = 1) :
    (tls13_legacy_shutdown s a f r b).2.1.close_notify_sent = true ∧
    (tls13_legacy_shutdown s a f r b).2.1.close_notify_recv = true := by
  by_cases hs : s.close_notify_sent = true
  · exact shutdown_sound_sent s a f r b hc hq hs hf0 h1
  · replace hs : s.close_notify_sent = false := by simp_all
    by_cases ha : a < 0
    · rw [shutdown_alert_fail s a f r b hc hq hs ha] at h1
      exact absurd h1 (return_code_nonpos_ne_one _ a (by omega))
    · have hred := shutdown_send_reduce s a f r b hc hq hs (by omega)
      rw [hred.1] at h1
      rw [hred.2]
      exact shutdown_sound_sent _ a f r b (by simp [hc]) (by simp [hq]) (by simp)
        hf0 h1

theorem shutdown_complete_sent (s : SSLState) (a f r : Int) (b : Bool)
    (hc : s.haveCtx = true) (hq : s.quiet_shutdown = false)
    (hs : s.close_notify_sent = true) (hf : f = TLS13_IO_SUCCESS)
    (hbr : b = true → r = TLS13_IO_EOF)
    (hpost : (tls13_legacy_shutdown s a f r b).2.1.close_notify_sent = true ∧
      (tls13_legacy_shutdown s a f r b).2.1.close_notify_recv = true) :
    (tls13_legacy_shutdown s a f r b).1 = 1 := by
  by_cases hr : s.close_notify_recv = true
  · rw [shutdown_already_done s a f r b hc hq hs hr hf]
  · replace hr : s.close_notify_recv = false := by simp_all
    by_cases hpos : 0 < r
    · have hb : b = false := by
        cases hbb : b
        · rfl
        · have := hbr hbb
          rw [this] at hpos
          norm_num [TLS13_IO_EOF] at hpos
      rw [shutdown_recv_pos s a f r b hc hq hs hr hf hpos, hb] at hpost
      rw [return_code_pollin] at hpost
      simp [hr] at hpost
    · by_cases he : r = TLS13_IO_EOF
      · rw [shutdown_recv_eof s a f r b hc hq hs hr hf he] at hpost ⊢
        cases b
        · simp [hr] at hpost
        · simp
      · have hb : b = false := by
          cases hbb : b
          · rfl
          · exact absurd (hbr hbb) he
        rw [shutdown_recv_other s a f r b hc hq hs hr hf (by omega) he, hb] at hpost
        have hfld := (return_code_fields s r).2.2.2.2.2.1
        simp only [if_neg (by simp : ¬(false = true))] at hpost
        rw [hfld] at hpost
        simp [hr] at hpost

theorem shutdown_unsent_eq (s : SSLState) (a f r : Int) (b : Bool)
    (hc : s.haveCtx = true) (hq : s.quiet_shutdown = false)
    (hs : s.close_notify_sent = false) (ha : 0 ≤ a) :
    tls13_legacy_shutdown s a f r b =
      ((tls13_legacy_shutdown { s with close_notify_sent := true } a f r b).1,
       (tls13_legacy_shutdown { s with close_notify_sent := true } a f r b).2.1,
       { sentAlert := true,
         flushed :=
           (tls13_legacy_shutdown { s with close_notify_sent := true } a f r b).2.2.flushed,
         didRead :=
           (tls13_legacy_shutdown { s with close_notify_sent := true } a f r b).2.2.didRead }) := by
  unfold tls13_legacy_shutdown
  rw [hc, hq]
  simp only [hs, Bool.not_true, Bool.not_false, Bool.or_self, Bool.false_or,
    Bool.or_false]
  norm_num
  rw [if_neg (by omega : ¬(a < 0))]
  split_ifs <;> simp_all

theorem shutdown_sent_true_props (s : SSLState) (a f r : Int) (b : Bool)
    (hc : s.haveCtx = true) (hq : s.quiet_shutdown = false)
    (hs : s.close_notify_sent = true) :
    (tls13_legacy_shutdown s a f r b).2.1.close_notify_sent = true ∧
    (tls13_legacy_shutdown s a f r b).2.2.sentAlert = false ∧
    (tls13_legacy_shutdown s a f r b).2.1.haveCtx = s.haveCtx ∧
    (tls13_legacy_shutdown s a f r b).2.1.quiet_shutdown = s.quiet_shutdown := by
  by_cases hf : f = TLS13_IO_SUCCESS
  · by_cases hr : s.close_notify_recv = true
    · rw [shutdown_already_done s a f r b hc hq hs hr hf]
      exact ⟨hs, rfl, rfl, rfl⟩
    · replace hr : s.close_notify_recv = false := by simp_all
      by_cases hpos : 0 < r
      · rw [shutdown_recv_pos s a f r b hc hq hs hr hf hpos]
        have hfld := return_code_fields
          (if b then { s with close_notify_recv := true } else s) TLS13_IO_WANT_POLLIN
        cases b <;> simp_all
      · by_cases he : r = TLS13_IO_EOF
        · rw [shutdown_recv_eof s a f r b hc hq hs hr hf he]
          cases b <;> simp_all
        · rw [shutdown_recv_other s a f r b hc hq hs hr hf (by omega) he]
          have hfld := return_code_fields
            (if b then { s with close_notify_recv := true } else s) r
          cases b <;> simp_all
  · rw [shutdown_flush_fail s a f r b hc hq hs hf]
    have hfld := return_code_fields s f
    simp_all

theorem shutdown_props (s : SSLState) (a f r : Int) (b : Bool) :
    ((tls13_legacy_shutdown s a f r b).2.2.sentAlert = true →
      s.close_notify_sent = false) ∧
    (s.close_notify_sent = true →
      (tls13_legacy_shutdown s a f r b).2.1.close_notify_sent = true ∧
      (tls13_legacy_shutdown s a f r b).2.2.sentAlert = false) ∧
    ((tls13_legacy_shutdown s a f r b).2.2.sentAlert = true →
      (tls13_legacy_shutdown s a f r b).2.1.close_notify_sent = true) ∧
    (tls13_legacy_shutdown s a f r b).2.1.haveCtx = s.haveCtx ∧
    (tls13_legacy_shutdown s a f r b).2.1.quiet_shutdown = s.quiet_shutdown := by
  by_cases htriv : s.haveCtx = false ∨ s.quiet_shutdown = true
  · rw [shutdown_trivial s a f r b htriv]
    exact ⟨by simp, fun h => ⟨h, rfl⟩, by simp, rfl, rfl⟩
  · have hc : s.haveCtx = true := by
      cases hcc : s.haveCtx
      · exact absurd (Or.inl hcc) htriv
      · rfl
    have hq : s.quiet_shutdown = false := by
      cases hqq : s.quiet_shutdown
      · rfl
      · exact absurd (Or.inr hqq) htriv
    cases hs : s.close_notify_sent
    · by_cases ha : a < 0
      · rw [shutdown_alert_fail s a f r b hc hq hs ha]
        have hfld := return_code_fields { s with close_notify_sent := true } a
        refine ⟨fun _ => rfl, ?_, fun _ => ?_, ?_, ?_⟩
        · intro h; exact Bool.noConfusion h
        · exact hfld.2.2.2.2.1
        · exact hfld.1
        · exact hfld.2.2.1
      · rw [shutdown_unsent_eq s a f r b hc hq hs (by omega)]
        have hp := shutdown_sent_true_props { s with close_notify_sent := true }
          a f r b (by simp [hc]) (by simp [hq]) (by simp)
        refine ⟨fun _ => rfl, ?_, fun _ => hp.1, ?_, ?_⟩
        · intro h; exact Bool.noConfusion h
        · exact hp.2.2.1
        · exact hp.2.2.2
    · have hp := shutdown_sent_true_props s a f r b hc hq hs
      refine ⟨?_, fun _ => ⟨hp.1, hp.2.1⟩, fun _ => hp.1, hp.2.2.1, hp.2.2.2⟩
      intro h
      rw [hp.2.1] at h
      exact Bool.noConfusion h

theorem shutdown_posread (s : SSLState) (a f r : Int) (b : Bool)
    (hc : s.haveCtx = true) (hq : s.quiet_shutdown = false)
    (hsa : s.close_notify_sent = true ∨ 0 ≤ a) (hf : f = TLS13_IO_SUCCESS)
    (hr : s.close_notify_recv = false) (hpos : 0 < r) :
    (tls13_legacy_shutdown s a f r b).1 = -1 ∧
    (tls13_legacy_shutdown s a f r b).2.1.rwstate = Rwstate.reading ∧
    (tls13_legacy_shutdown s a f r b).2.1.retryRead = true := by
  cases hs : s.close_notify_sent
  · have ha : 0 ≤ a := by
      rcases hsa with h | h
      · rw [hs] at h; exact Bool.noConfusion h
      · exact h
    have hred := shutdown_send_reduce s a f r b hc hq hs ha
    rw [hred.1, hred.2]
    rw [shutdown_recv_pos _ a f r b (by simp [hc]) (by simp [hq]) (by simp)
      (by simp [hr]) hf hpos, return_code_pollin]
    exact ⟨rfl, rfl, rfl⟩
  · rw [shutdown_recv_pos s a f r b hc hq hs hr hf hpos, return_code_pollin]
    exact ⟨rfl, rfl, rfl⟩

theorem shutdown_eof_phase (s : SSLState) (a f r : Int) (b : Bool)
    (hc : s.haveCtx = true) (hq : s.quiet_shutdown = false)
    (hsa : s.close_notify_sent = true ∨ 0 ≤ a) (hf : f = TLS13_IO_SUCCESS)
    (hr : s.close_notify_recv = false) (he : r = TLS13_IO_EOF) :
    (tls13_legacy_shutdown s a f r b).1 = (if b then 1 else 0) := by
  cases hs : s.close_notify_sent
  · have ha : 0 ≤ a := by
      rcases hsa with h | h
      · rw [hs] at h; exact Bool.noConfusion h
      · exact h
    rw [(shutdown_send_reduce s a f r b hc hq hs ha).1]
    rw [shutdown_recv_eof _ a f r b (by simp [hc]) (by simp [hq]) (by simp)
      (by simp [hr]) hf he]
  · rw [shutdown_recv_eof s a f r b hc hq hs hr hf he]

theorem shutdown_zero (s : SSLState) (a f r : Int) (b : Bool)
    (hc : s.haveCtx = true) (hq : s.quiet_shutdown = false)
    (hsa : s.close_notify_sent = true ∨ 0 ≤ a) (hf : f = TLS13_IO_SUCCESS)
    (hr : s.close_notify_recv = false) (he : r = TLS13_IO_EOF)
    (hb : b = false) :
    (tls13_legacy_shutdown s a f r b).1 = 0 := by
  rw [shutdown_eof_phase s a f r b hc hq hsa hf hr he, hb]
  rfl

theorem shutdown_one_iff (s : SSLState) (a f r : Int) (b : Bool)
    (hc : s.haveCtx = true) (hq : s.quiet_shutdown = false)
    (hf : f = TLS13_IO_SUCCESS) (hsa : s.close_notify_sent = true ∨ 0 ≤ a)
    (hbr : b = true → r = TLS13_IO_EOF) :
    ((tls13_legacy_shutdown s a f r b).1 = 1 ↔
      (tls13_legacy_shutdown s a f r b).2.1.close_notify_sent = true ∧
      (tls13_legacy_shutdown s a f r b).2.1.close_notify_recv = true) := by
  constructor
  · exact shutdown_sound s a f r b hc hq
      (by rw [hf]; norm_num [TLS13_IO_SUCCESS])
  · intro hpost
    cases hs : s.close_notify_sent
    · have ha : 0 ≤ a := by
        rcases hsa with h | h
        · rw [hs] at h; exact Bool.noConfusion h
        · exact h
      have hred := shutdown_send_reduce s a f r b hc hq hs ha
      rw [hred.2] at hpost
      rw [hred.1]
      exact shutdown_complete_sent _ a f r b (by simp [hc]) (by simp [hq])
        (by simp) hf hbr hpost
    · exact shutdown_complete_sent s a f r b hc hq hs hf hbr hpost

/-- C2 (amended): shutdown returns 1 immediately with both shutdown
bitmask flags set when no handshake context exists or quiet-shutdown is
configured; otherwise (the flush outcome being success or a sentinel, as
the write direction never yields a byte count), a result of 1 implies both
close-notify directions are marked closed, and when the flush reports
success, the alert transmission did not fail, and an EOF drain outcome is
what marks the peer's close-notify received, the result is 1 exactly when
both directions are marked closed afterwards; it returns 0 when the local
close-notify is sent and flushed but the peer's has not arrived; a
positive drain read is discarded and reinterpreted as
retry-waiting-for-read-readiness; an EOF drain outcome is treated as
success for the receive phase, never as an error. -/
theorem claim_C2 (s : SSLState) (a f r : Int) (b : Bool) :
    ((s.haveCtx = false ∨ s.quiet_shutdown = true) →
      tls13_legacy_shutdown s a f r b =
        (1, { s with shutdownMask := SSL_SENT_SHUTDOWN ||| SSL_RECEIVED_SHUTDOWN },
          ⟨false, false, false⟩)) ∧
    (s.haveCtx = true → s.quiet_shutdown = false → f ≤ 0 →
      (tls13_legacy_shutdown s a f r b).1 = 1 →
      (tls13_legacy_shutdown s a f r b).2.1.close_notify_sent = true ∧
      (tls13_legacy_shutdown s a f r b).2.1.close_notify_recv = true) ∧
    (s.haveCtx = true → s.quiet_shutdown = false → f = TLS13_IO_SUCCESS →
      (s.close_notify_sent = true ∨ 0 ≤ a) → (b = true → r = TLS13_IO_EOF) →
      ((tls13_legacy_shutdown s a f r b).1 = 1 ↔
        (tls13_legacy_shutdown s a f r b).2.1.close_notify_sent = true ∧
        (tls13_legacy_shutdown s a f r b).2.1.close_notify_recv = true)) ∧
    (s.haveCtx = true → s.quiet_shutdown = false → f = TLS13_IO_SUCCESS →
      (s.close_notify_sent = true ∨ 0 ≤ a) → s.close_notify_recv = false →
      r = TLS13_IO_EOF → b = false →
      (tls13_legacy_shutdown s a f r b).1 = 0) ∧
    (s.haveCtx = true → s.quiet_shutdown = false → f = TLS13_IO_SUCCESS →
      (s.close_notify_sent = true ∨ 0 ≤ a) → s.close_notify_recv = false →
      0 < r →
      (tls13_legacy_shutdown s a f r b).1 = -1 ∧
      (tls13_legacy_shutdown s a f r b).2.1.rwstate = Rwstate.reading ∧
      (tls13_legacy_shutdown s a f r b).2.1.retryRead = true) ∧
    (s.haveCtx = true → s.quiet_shutdown = false → f = TLS13_IO_SUCCESS →
      (s.close_notify_sent = true ∨ 0 ≤ a) → s.close_notify_recv = false →
      r = TLS13_IO_EOF →
      (tls13_legacy_shutdown s a f r b).1 = (if b then 1 else 0)) := by
  refine ⟨shutdown_trivial s a f r b, shutdown_sound s a f r b, ?_, ?_, ?_, ?_⟩
  · intro hc hq hf hsa hbr
    exact shutdown_one_iff s a f r b hc hq hf hsa hbr
  · intro hc hq hf hsa hr he hb
    exact shutdown_zero s a f r b hc hq hsa hf hr he hb
  · intro hc hq hf hsa hr hpos
    exact shutdown_posread s a f r b hc hq hsa hf hr hpos
  · intro hc hq hf hsa hr he
    exact shutdown_eof_phase s a f r b hc hq hsa hf hr he

/-- C2 counterexample: the claim says shutdown returns 1 exactly when both
close-notify directions are marked closed, but with both directions
already closed and the flush reporting retry-when-writable the call
returns -1, not 1. -/
theorem claim_C2_cex :
    (tls13_legacy_shutdown sBothClosed 0 TLS13_IO_WANT_POLLOUT 0 false).1 = -1 ∧
    (tls13_legacy_shutdown sBothClosed 0 TLS13_IO_WANT_POLLOUT 0
      false).2.1.close_notify_sent = true ∧
    (tls13_legacy_shutdown sBothClosed 0 TLS13_IO_WANT_POLLOUT 0
      false).2.1.close_notify_recv = true ∧
    sBothClosed.haveCtx = true ∧ sBothClosed.quiet_shutdown = false := by decide

/-- C2 witness: a fresh connection whose drain read observes EOF with the
peer's close-notify processed completes with 1. -/
theorem claim_C2_witness :
    (tls13_legacy_shutdown sFresh 0 TLS13_IO_SUCCESS TLS13_IO_EOF true).1 = 1 :=
  ((claim_C2 sFresh 0 TLS13_IO_SUCCESS TLS13_IO_EOF true).2.2.1 (by decide)
    (by decide) rfl (Or.inr (by decide)) (fun _ => rfl)).mpr (by decide)

/-- C3: the close-notify-sent flag is set before the alert transmission is
attempted and never cleared, the alert is sent at most once across two
consecutive shutdown calls, and after a call returned 1 (with the flush
outcome being success or a sentinel, as the record layer's flush never
reports a byte count), a subsequent call whose flush reports success
returns 1 without sending any further close-notify alert. -/
theorem claim_C3 (s : SSLState) (a1 f1 r1 a2 f2 r2 : Int) (b1 b2 : Bool) :
    ((tls13_legacy_shutdown s a1 f1 r1 b1).2.2.sentAlert = true →
      s.close_notify_sent = false ∧
      (tls13_legacy_shutdown s a1 f1 r1 b1).2.1.close_notify_sent = true) ∧
    (s.close_notify_sent = true →
      (tls13_legacy_shutdown s a1 f1 r1 b1).2.1.close_notify_sent = true) ∧
    ¬((tls13_legacy_shutdown s a1 f1 r1 b1).2.2.sentAlert = true ∧
      (tls13_legacy_shutdown (tls13_legacy_shutdown s a1 f1 r1 b1).2.1
        a2 f2 r2 b2).2.2.sentAlert = true) ∧
    ((tls13_legacy_shutdown s a1 f1 r1 b1).1 = 1 → f1 ≤ 0 →
      f2 = TLS13_IO_SUCCESS →
      (tls13_legacy_shutdown (tls13_legacy_shutdown s a1 f1 r1 b1).2.1
        a2 f2 r2 b2).1 = 1 ∧
      (tls13_legacy_shutdown (tls13_legacy_shutdown s a1 f1 r1 b1).2.1
        a2 f2 r2 b2).2.2.sentAlert = false) := by
  have hp1 := shutdown_props s a1 f1 r1 b1
  have hp2 := shutdown_props (tls13_legacy_shutdown s a1 f1 r1 b1).2.1 a2 f2 r2 b2
  refine ⟨fun h => ⟨hp1.1 h, hp1.2.2.1 h⟩, fun h => (hp1.2.1 h).1, ?_, ?_⟩
  · rintro ⟨h1, h2⟩
    have hfalse := hp2.1 h2
    rw [hp1.2.2.1 h1] at hfalse
    exact Bool.noConfusion hfalse
  · intro h1 hf0 hf2
    by_cases htriv : s.haveCtx = false ∨ s.quiet_shutdown = true
    · have htriv2 : (tls13_legacy_shutdown s a1 f1 r1 b1).2.1.haveCtx = false ∨
          (tls13_legacy_shutdown s a1 f1 r1 b1).2.1.quiet_shutdown = true := by
        rcases htriv with h | h
        · exact Or.inl (by rw [hp1.2.2.2.1, h])
        · exact Or.inr (by rw [hp1.2.2.2.2, h])
      rw [shutdown_trivial _ a2 f2 r2 b2 htriv2]
      exact ⟨rfl, rfl⟩
    · have hc : s.haveCtx = true := by
        cases hcc : s.haveCtx
        · exact absurd (Or.inl hcc) htriv
        · rfl
      have hq : s.quiet_shutdown = false := by
        cases hqq : s.quiet_shutdown
        · rfl
        · exact absurd (Or.inr hqq) htriv
      have hflags := shutdown_sound s a1 f1 r1 b1 hc hq hf0 h1
      have hc2 : (tls13_legacy_shutdown s a1 f1 r1 b1).2.1.haveCtx = true := by
        rw [hp1.2.2.2.1, hc]
      have hq2 : (tls13_legacy_shutdown s a1 f1 r1 b1).2.1.quiet_shutdown = false := by
        rw [hp1.2.2.2.2, hq]
      rw [shutdown_already_done _ a2 f2 r2 b2 hc2 hq2 hflags.1 hflags.2 hf2]
      exact ⟨rfl, rfl⟩

/-- C3 witness: a completed shutdown followed by a second call with a
successful flush. -/
theorem claim_C3_witness :
    (tls13_legacy_shutdown
      (tls13_legacy_shutdown sFresh 0 TLS13_IO_SUCCESS TLS13_IO_EOF true).2.1
      0 TLS13_IO_SUCCESS 0 false).1 = 1 ∧
    (tls13_legacy_shutdown
      (tls13_legacy_shutdown sFresh 0 TLS13_IO_SUCCESS TLS13_IO_EOF true).2.1
      0 TLS13_IO_SUCCESS 0 false).2.2.sentAlert = false :=
  (claim_C3 sFresh 0 TLS13_IO_SUCCESS TLS13_IO_EOF 0 TLS13_IO_SUCCESS 0
    true false).2.2.2 (by decide) (by decide) rfl

/-!
Strict-write loop lemmas.
-/

theorem intOfSizeT_small (x : Nat) (h : x < 2 ^ 31) : intOfSizeT x = x := by
  unfold intOfSizeT
  have h32 : x % 2 ^ 32 = x := Nat.mod_eq_of_lt (by omega)
  rw [h32, if_pos (by omega)]

theorem addW_small (a b : Nat) (h : a + b < 2 ^ 64) : addW a b = a + b :=
  Nat.mod_eq_of_lt h

theorem subW_small (a b : Nat) (hb : b ≤ a) (ha : a < 2 ^ 64) :
    subW a b = a - b := by
  unfold subW
  have hbm : b % 2 ^ 64 = b := Nat.mod_eq_of_lt (by omega)
  rw [hbm]
  have hsplit : a + (2 ^ 64 - b) = (a - b) + 2 ^ 64 := by omega
  rw [hsplit, Nat.add_mod_right]
  exact Nat.mod_eq_of_lt (by omega)

theorem toNat_ofNat_eq (n : Nat) : (Int.ofNat n).toNat = n := rfl

theorem ofNat_pos_not_le (n : Nat) (h : 0 < n) : ¬(Int.ofNat n ≤ 0) := by
  simp [Int.ofNat_eq_natCast]
  omega

theorem loop_done (ps : List Nat) : ∀ (sent n : Nat) (s : SSLState),
    (∀ x ∈ ps, 0 < x) → ps.sum = n → sent + n < 2 ^ 31 →
    tls13_write_loop (ps.map Int.ofNat) sent n s =
      some (Int.ofNat (sent + n), { s with wnum := 0 },
        loopOffsets sent n ps) := by
  induction ps with
  | nil =>
    intro sent n s _ hsum hlt
    have hn : n = 0 := by simpa using hsum.symm
    subst hn
    unfold tls13_write_loop
    rw [if_pos rfl, intOfSizeT_small sent (by omega)]
    simp [loopOffsets, Int.ofNat_eq_natCast]
  | cons x rest ih =>
    intro sent n s hpos hsum hlt
    have hx : 0 < x := hpos x (by simp)
    have hn : n = x + rest.sum := by simpa using hsum.symm
    unfold tls13_write_loop
    rw [if_neg (by omega)]
    simp only [List.map_cons]
    rw [if_neg (ofNat_pos_not_le x hx)]
    rw [toNat_ofNat_eq]
    rw [addW_small sent x (by omega), subW_small n x (by omega) (by omega)]
    rw [ih (sent + x) (n - x) s (fun y hy => hpos y (by simp [hy]))
      (by omega) (by omega)]
    have harith : sent + x + (n - x) = sent + n := by omega
    rw [harith]
    simp [loopOffsets]
theorem loop_retry (ps : List Nat) : ∀ (e : Int) (sent n : Nat) (s : SSLState),
    (∀ x ∈ ps, 0 < x) → ps.sum < n → sent + n < 2 ^ 31 → e ≤ 0 →
    tls13_write_loop (ps.map Int.ofNat ++ [e]) sent n s =
      some ((tls13_legacy_return_code { s with wnum := sent + ps.sum } e).1,
        (tls13_legacy_return_code { s with wnum := sent + ps.sum } e).2,
        loopOffsets sent n ps ++ [(sent + ps.sum, n - ps.sum)]) := by
  induction ps with
  | nil =>
    intro e sent n s _ hsum hlt he
    unfold tls13_write_loop
    rw [if_neg (by simp at hsum; omega)]
    simp only [List.map_nil, List.nil_append]
    rw [if_pos he]
    simp [loopOffsets]
  | cons x rest ih =>
    intro e sent n s hpos hsum hlt he
    have hx : 0 < x := hpos x (by simp)
    have hxr : x + rest.sum < n := by simpa using hsum
    unfold tls13_write_loop
    rw [if_neg (by omega)]
    simp only [List.map_cons, List.cons_append]
    rw [if_neg (ofNat_pos_not_le x hx)]
    rw [toNat_ofNat_eq]
    rw [addW_small sent x (by omega), subW_small n x (by omega) (by omega)]
    rw [ih e (sent + x) (n - x) s (fun y hy => hpos y (by simp [hy]))
      (by omega) (by omega) he]
    have h1 : sent + x + rest.sum = sent + (x :: rest).sum := by
      simp
      omega
    have h2 : n - x - rest.sum = n - (x :: rest).sum := by
      simp
      omega
    rw [h1, h2]
    simp [loopOffsets]

theorem write_bytes_strict (s : SSLState) (len hs : Int) (outs : List Int)
    (hctx : s.haveCtx = true) (hhs : s.handshake_completed = true)
    (hpw : s.modePW = false) (hlen : 0 ≤ len) (hw : s.wnum ≤ len.toNat) :
    tls13_legacy_write_bytes s SSL3_RT_APPLICATION_DATA len hs outs =
      tls13_write_loop outs s.wnum (len.toNat - s.wnum) s := by
  unfold tls13_legacy_write_bytes
  rw [hctx, hhs, hpw]
  norm_num
  rw [if_neg (not_lt.mpr hlen), if_neg (not_lt.mpr hw)]
theorem run_calls_eq (a : List Nat) : ∀ (s : SSLState) (len hs : Int),
    s.haveCtx = true → s.handshake_completed = true → s.modePW = false →
    (∀ x ∈ a, 0 < x) → s.wnum + a.sum = len.toNat → 0 ≤ len → len ≤ INT_MAX →
    runWriteCalls SSL3_RT_APPLICATION_DATA len hs s (mkRetryCalls a) =
      expectedRun len.toNat s.wnum a := by
  induction a with
  | nil =>
    intro s len hs _ _ _ _ _ _ _
    simp [mkRetryCalls, runWriteCalls, expectedRun]
  | cons x rest ih =>
    intro s len hs hctx hhs hpw hpos hsum hlen hmax
    have hx : 0 < x := hpos x (by simp)
    have hmax31 : len.toNat < 2 ^ 31 := by
      have hle : len ≤ (2 : Int) ^ 31 - 1 := by
        simpa [INT_MAX] using hmax
      omega
    cases rest with
    | nil =>
      have hsum1 : s.wnum + x = len.toNat := by simpa using hsum
      simp only [mkRetryCalls, runWriteCalls]
      rw [write_bytes_strict s len hs _ hctx hhs hpw hlen (by omega)]
      have hmape : ([Int.ofNat x] : List Int) = [x].map Int.ofNat := rfl
      rw [hmape, loop_done [x] s.wnum (len.toNat - s.wnum) s
        (by intro z hz; simp at hz; omega) (by simp; omega) (by omega)]
      have h1 : s.wnum + (len.toNat - s.wnum) = len.toNat := by omega
      have h2 : len.toNat - s.wnum = x := by omega
      rw [h1]
      simp only [expectedRun, loopOffsets, h2]
    | cons y rest2 =>
      have hy : 0 < y := hpos y (by simp)
      have hsum2 : s.wnum + x < len.toNat := by
        simp at hsum
        omega
      simp only [mkRetryCalls, runWriteCalls]
      rw [write_bytes_strict s len hs _ hctx hhs hpw hlen (by omega)]
      have hmape : ([Int.ofNat x, TLS13_IO_WANT_POLLOUT] : List Int) =
          [x].map Int.ofNat ++ [TLS13_IO_WANT_POLLOUT] := rfl
      rw [hmape, loop_retry [x] TLS13_IO_WANT_POLLOUT s.wnum
        (len.toNat - s.wnum) s (by intro z hz; simp at hz; omega)
        (by simp; omega) (by omega) (by norm_num [TLS13_IO_WANT_POLLOUT])]
      rw [return_code_pollout]
      simp only [List.sum_cons, List.sum_nil, Nat.add_zero, loopOffsets,
        List.cons_append, List.nil_append]
      simp only [expectedRun]
      rw [ih { s with wnum := s.wnum + x
                      retryWrite := true
                      rwstate := Rwstate.writing } len hs hctx hhs hpw
        (fun z hz => hpos z (by simp [hz])) (by simp at hsum ⊢; omega)
        hlen hmax]
theorem expectedRun_ne_nil (a : List Nat) (base L : Nat) (h : a ≠ []) :
    expectedRun L base a ≠ [] := by
  cases a with
  | nil => exact absurd rfl h
  | cons x rest => cases rest <;> simp [expectedRun]

theorem dropLast_cons_ne (x : Nat) (l : List Nat) (h : l ≠ []) :
    (x :: l).dropLast = x :: l.dropLast := by
  cases l
  · exact absurd rfl h
  · rw [List.dropLast_cons₂]

theorem expectedRun_trace_sum (a : List Nat) : ∀ (base L : Nat),
    (∀ x ∈ a, 0 < x) → base + a.sum = L →
    ∀ c ∈ expectedRun L base a, ∀ p ∈ c.2.2, p.1 + p.2 = L := by
  induction a with
  | nil =>
    intro base L _ _ c hc
    simp [expectedRun] at hc
  | cons x rest ih =>
    intro base L hpos hsum c hc p hp
    cases rest with
    | nil =>
      simp only [expectedRun, List.mem_singleton] at hc
      subst hc
      simp only [List.mem_singleton] at hp
      subst hp
      simp at hsum
      simp
      omega
    | cons y rest2 =>
      simp only [expectedRun, List.mem_cons] at hc
      rcases hc with hc | hc
      · subst hc
        simp only [List.mem_cons, List.mem_singleton] at hp
        have hxy : 0 < x := hpos x (by simp)
        have hyy : 0 < y := hpos y (by simp)
        have hble : base + x ≤ L := by
          simp at hsum
          omega
        rcases hp with hp | hp
        · subst hp; simp; omega
        · rcases hp with hp | hp
          · subst hp; simp; omega
          · simp at hp
      · exact ih (base + x) L (fun z hz => hpos z (by simp [hz]))
          (by simp at hsum ⊢; omega) c hc p hp

theorem expectedRun_count (a : List Nat) : ∀ (base L : Nat), a ≠ [] →
    List.count (Int.ofNat L) ((expectedRun L base a).map (fun c => c.1)) = 1 := by
  induction a with
  | nil => intro base L h; exact absurd rfl h
  | cons x rest ih =>
    intro base L _
    cases rest with
    | nil => simp [expectedRun]
    | cons y rest2 =>
      simp only [expectedRun, List.map_cons, List.count_cons]
      rw [ih (base + x) L (by simp)]
      have hne : ¬((-1 : Int) = Int.ofNat L) := by
        have h0 : (0 : Int) ≤ Int.ofNat L := Int.ofNat_nonneg L
        omega
      simp [hne]

theorem expectedRun_chain (a : List Nat) : ∀ (base L : Nat),
    List.Chain' (· ≤ ·)
      (base :: ((expectedRun L base a).map (fun c => c.2.1)).dropLast) := by
  induction a with
  | nil => intro base L; simp [expectedRun]
  | cons x rest ih =>
    intro base L
    cases rest with
    | nil => simp [expectedRun]
    | cons y rest2 =>
      simp only [expectedRun, List.map_cons]
      rw [dropLast_cons_ne _ _ (by cases rest2 <;> simp [expectedRun])]
      rw [List.chain'_cons]
      exact ⟨Nat.le_add_right base x, ih (base + x) L⟩
/-- C1: in strict (partial-write-disallowed) mode with the handshake
completed, the write path resumes from the carried count `wnum`: the loop
attempts the remaining unsent suffix (each record-layer call is at offset
equal to the bytes accepted so far with the remaining length, every trace
offset/length pair summing to the requested length), persists the count
sent so far into `wnum` and returns the translated outcome on a
non-positive record-layer outcome, and on reaching zero remaining bytes
resets `wnum` to zero and returns the full original requested length;
over a sequence of record-layer acceptances summing to the requested
length (one acceptance per call, each non-final call then blocked by a
retry-when-writable outcome), the repeated calls return the full length
exactly once, all intermediate calls returning -1, with a monotonically
non-decreasing carried count before the final reset. -/
theorem claim_C1 (s : SSLState) (len hs e : Int) (ps a : List Nat) :
    (s.haveCtx = true → s.handshake_completed = true → s.modePW = false →
     0 ≤ len → len ≤ INT_MAX → (∀ x ∈ ps, 0 < x) →
     s.wnum + ps.sum < len.toNat → e ≤ 0 →
      tls13_legacy_write_bytes s SSL3_RT_APPLICATION_DATA len hs
          (ps.map Int.ofNat ++ [e]) =
        some ((tls13_legacy_return_code { s with wnum := s.wnum + ps.sum } e).1,
          (tls13_legacy_return_code { s with wnum := s.wnum + ps.sum } e).2,
          loopOffsets s.wnum (len.toNat - s.wnum) ps ++
            [(s.wnum + ps.sum, len.toNat - s.wnum - ps.sum)]) ∧
      (tls13_legacy_return_code { s with wnum := s.wnum + ps.sum } e).2.wnum =
        s.wnum + ps.sum) ∧
    (s.haveCtx = true → s.handshake_completed = true → s.modePW = false →
     0 ≤ len → len ≤ INT_MAX → (∀ x ∈ ps, 0 < x) →
     s.wnum + ps.sum = len.toNat →
      tls13_legacy_write_bytes s SSL3_RT_APPLICATION_DATA len hs
          (ps.map Int.ofNat) =
        some (len, { s with wnum := 0 },
          loopOffsets s.wnum (len.toNat - s.wnum) ps)) ∧
    (s.haveCtx = true → s.handshake_completed = true → s.modePW = false →
     s.wnum = 0 → (∀ x ∈ a, 0 < x) → a ≠ [] → a.sum = len.toNat →
     0 ≤ len → len ≤ INT_MAX →
      runWriteCalls SSL3_RT_APPLICATION_DATA len hs s (mkRetryCalls a) =
        expectedRun len.toNat 0 a ∧
      List.count len ((runWriteCalls SSL3_RT_APPLICATION_DATA len hs s
        (mkRetryCalls a)).map (fun c => c.1)) = 1 ∧
      List.Chain' (· ≤ ·) (0 :: ((runWriteCalls SSL3_RT_APPLICATION_DATA
        len hs s (mkRetryCalls a)).map (fun c => c.2.1)).dropLast) ∧
      (∀ c ∈ runWriteCalls SSL3_RT_APPLICATION_DATA len hs s (mkRetryCalls a),
        ∀ p ∈ c.2.2, p.1 + p.2 = len.toNat)) := by
  refine ⟨?_, ?_, ?_⟩
  · intro hctx hhs hpw hlen hmax hpos hlt he
    have hmax31 : len.toNat < 2 ^ 31 := by
      have hle : len ≤ (2 : Int) ^ 31 - 1 := by simpa [INT_MAX] using hmax
      omega
    constructor
    · rw [write_bytes_strict s len hs _ hctx hhs hpw hlen (by omega)]
      rw [loop_retry ps e s.wnum (len.toNat - s.wnum) s hpos (by omega)
        (by omega) he]
    · exact (return_code_fields { s with wnum := s.wnum + ps.sum } e).2.2.2.2.2.2
  · intro hctx hhs hpw hlen hmax hpos hsum
    have hmax31 : len.toNat < 2 ^ 31 := by
      have hle : len ≤ (2 : Int) ^ 31 - 1 := by simpa [INT_MAX] using hmax
      omega
    rw [write_bytes_strict s len hs _ hctx hhs hpw hlen (by omega)]
    rw [loop_done ps s.wnum (len.toNat - s.wnum) s hpos (by omega) (by omega)]
    have h1 : s.wnum + (len.toNat - s.wnum) = len.toNat := by omega
    have h2 : Int.ofNat len.toNat = len := by
      rw [Int.ofNat_eq_natCast]
      exact Int.toNat_of_nonneg hlen
    rw [h1, h2]
  · intro hctx hhs hpw hw0 hpos hne hsum hlen hmax
    have hrun := run_calls_eq a s len hs hctx hhs hpw hpos
      (by rw [hw0]; simpa using hsum) hlen hmax
    rw [hw0] at hrun
    have h2 : Int.ofNat len.toNat = len := by
      rw [Int.ofNat_eq_natCast]
      exact Int.toNat_of_nonneg hlen
    refine ⟨hrun, ?_, ?_, ?_⟩
    · rw [hrun, ← h2]
      exact expectedRun_count a 0 len.toNat hne
    · rw [hrun]
      exact expectedRun_chain a 0 len.toNat
    · rw [hrun]
      exact expectedRun_trace_sum a 0 len.toNat hpos (by simpa using hsum)
/-- C1 witness: a three-byte buffer accepted as 1 then 2 across two
calls. -/
theorem claim_C1_witness :
    runWriteCalls SSL3_RT_APPLICATION_DATA 3 0 sFresh (mkRetryCalls [1, 2]) =
      expectedRun (Int.toNat 3) 0 [1, 2] ∧
    List.count 3 ((runWriteCalls SSL3_RT_APPLICATION_DATA 3 0 sFresh
      (mkRetryCalls [1, 2])).map (fun c => c.1)) = 1 :=
  have h := (claim_C1 sFresh 3 0 (-5) [1] [1, 2]).2.2 rfl rfl rfl rfl
    (by decide) (by decide) (by decide) (by decide) (by decide)
  ⟨h.1, h.2.1⟩
end TLS13Legacy
